import Mathlib

/-!
Verification of the promotion engine in `promotionService_codingTest.ts`.

JavaScript numbers are modelled by the rationals `ℚ`; all arithmetic the
engine performs (sums of products, percentages `x / 100`) is exact on the
inputs considered, so the rational model coincides with the source's
numeric behaviour. Each class of the source becomes a Lean definition with
the same name; the `reduce`-based cart totals that the source writes
inline in `CartTotalFormula.process`, `PromoCodeFormula.process` and
`PromotionProcessor.processDiscount` are given one named definition per
site (`CartTotalFormula.cartTotal`, `PromoCodeFormula.cartTotal`,
`PromotionProcessor.cartTotal`) so that the agreement between the three
independent computations can be stated.
-/

/-- `CartItem` from the source: `{ productId, name, price, quantity }`. -/
structure CartItem where
  productId : String
  name : String
  price : ℚ
  quantity : ℚ
deriving DecidableEq

/-- `Cart` from the source: `{ items: CartItem[], promoCode?: string }`;
the optional promo code is an `Option String`. -/
structure Cart where
  items : List CartItem
  promoCode : Option String
deriving DecidableEq

/-- The cart total computed inside `CartTotalFormula.process`:
`cart.items.reduce((sum, item) => sum + item.price * item.quantity, 0)`. -/
def CartTotalFormula.cartTotal (cart : Cart) : ℚ :=
  cart.items.foldl (fun sum item => sum + item.price * item.quantity) 0

/-- `CartTotalFormula` with config `(threshold, discountPercent)`; its
`process` returns `total * (discountPercent / 100)` when
`total >= threshold`, else `0`. -/
def CartTotalFormula.process (threshold discountPercent : ℚ) (cart : Cart) : ℚ :=
  let total := CartTotalFormula.cartTotal cart
  if total ≥ threshold then total * (discountPercent / 100) else 0

/-- `ProductFormula` with config `(productId, fixedDiscount)`; its `process`
finds the first item whose `productId` matches and returns
`fixedDiscount * item.quantity`, else `0`. -/
def ProductFormula.process (productId : String) (fixedDiscount : ℚ) (cart : Cart) : ℚ :=
  match cart.items.find? (fun item => item.productId == productId) with
  | some item => fixedDiscount * item.quantity
  | none => 0

/-- The static code-to-percent table baked into `PromoCodeFormula`:
`{ 'SUMMER10': 10, 'VIP20': 20 }`. -/
def PromoCodeFormula.promoCodes : List (String × ℚ) :=
  [("SUMMER10", 10), ("VIP20", 20)]

/-- The cart total computed inside `PromoCodeFormula.process` (the same
`reduce` expression, recomputed independently at that site). -/
def PromoCodeFormula.cartTotal (cart : Cart) : ℚ :=
  cart.items.foldl (fun sum item => sum + item.price * item.quantity) 0

/-- The percent looked up by `PromoCodeFormula.process`:
`this.promoCodes[cart.promoCode || ''] || 0` — an absent promo code is
looked up as the empty string, and an absent table entry yields `0`. -/
def PromoCodeFormula.percentOf (cart : Cart) : ℚ :=
  ((PromoCodeFormula.promoCodes.find? (fun p => p.1 == cart.promoCode.getD "")).map
    Prod.snd).getD 0

/-- `PromoCodeFormula.process`: look up the percent, recompute the cart
total, and return `total * (percent / 100)`. -/
def PromoCodeFormula.process (cart : Cart) : ℚ :=
  let percent := PromoCodeFormula.percentOf cart
  let total := PromoCodeFormula.cartTotal cart
  total * (percent / 100)

/-- The `PromotionFormula` interface: the three implementing classes as a
tagged union, each constructor carrying that class's configuration. -/
inductive PromotionFormula where
  | cartTotalFormula (threshold discountPercent : ℚ)
  | productFormula (productId : String) (fixedDiscount : ℚ)
  | promoCodeFormula
deriving DecidableEq

/-- Dynamic dispatch of `process(cart)` to the implementing class. -/
def PromotionFormula.process : PromotionFormula → Cart → ℚ
  | .cartTotalFormula threshold discountPercent, cart =>
      CartTotalFormula.process threshold discountPercent cart
  | .productFormula productId fixedDiscount, cart =>
      ProductFormula.process productId fixedDiscount cart
  | .promoCodeFormula, cart => PromoCodeFormula.process cart

/-- `PromotionProcessor`, holding the configured ordered list of Formulas. -/
structure PromotionProcessor where
  Formulas : List PromotionFormula
deriving DecidableEq

/-- `PromotionProcessor.discountCalculation`:
`this.Formulas.reduce((sum, Formula) => sum + Formula.process(cart), 0)`. -/
def PromotionProcessor.discountCalculation (self : PromotionProcessor) (cart : Cart) : ℚ :=
  self.Formulas.foldl (fun sum Formula => sum + Formula.process cart) 0

/-- The result triple `{ total, discount, final }`. -/
structure DiscountResult where
  total : ℚ
  discount : ℚ
  final : ℚ
deriving DecidableEq

/-- The cart total computed inside `PromotionProcessor.processDiscount`
(again the same `reduce` expression, recomputed at that site). -/
def PromotionProcessor.cartTotal (cart : Cart) : ℚ :=
  cart.items.foldl (fun sum item => sum + item.price * item.quantity) 0

/-- `PromotionProcessor.processDiscount`: recompute the total, aggregate
the discount, return `{ total, discount, final: total - discount }`. -/
def PromotionProcessor.processDiscount (self : PromotionProcessor) (cart : Cart) :
    DiscountResult :=
  let total := PromotionProcessor.cartTotal cart
  let discount := self.discountCalculation cart
  { total := total, discount := discount, final := total - discount }

/-- Mathematical restatement of the cart total: `Σ price×quantity` over the
items, written as a `map`-then-`sum` so order and additivity facts apply. -/
def cartItemsSum (cart : Cart) : ℚ :=
  (cart.items.map (fun item => item.price * item.quantity)).sum

/-- The sample cart of the source file: items
`[(A1, Shoes, 100, 2), (B2, Hat, 50, 1)]` with promo code `VIP20`. -/
def sampleCart : Cart :=
  { items :=
      [ { productId := "A1", name := "Shoes", price := 100, quantity := 2 },
        { productId := "B2", name := "Hat", price := 50, quantity := 1 } ],
    promoCode := some "VIP20" }

/-- The sample rule list of the source file:
`[CartTotalFormula(150, 5), ProductFormula('A1', 10), PromoCodeFormula()]`. -/
def sampleFormulas : List PromotionFormula :=
  [ .cartTotalFormula 150 5, .productFormula "A1" 10, .promoCodeFormula ]

/-- The sample engine of the source file. -/
def engine : PromotionProcessor := { Formulas := sampleFormulas }

/-- Folding addition of `f` over a list starting from `a` is `a` plus the
sum of the mapped list. -/
theorem foldl_add_map_sum {α : Type} (f : α → ℚ) :
    ∀ (l : List α) (a : ℚ),
      l.foldl (fun sum x => sum + f x) a = a + (l.map f).sum := by
  intro l
  induction l with
  | nil => intro a; simp
  | cons x xs ih => intro a; simp [ih, add_assoc]

/-- The engine's recomputed total is exactly `Σ price×quantity`. -/
theorem PromotionProcessor.cartTotal_eq_itemsSum (cart : Cart) :
    PromotionProcessor.cartTotal cart = cartItemsSum cart := by
  have h := foldl_add_map_sum (fun item : CartItem => item.price * item.quantity)
    cart.items 0
  simpa [PromotionProcessor.cartTotal, cartItemsSum] using h

/-- C1: for every cart, `processDiscount` returns a triple whose `total` is
`Σ price×quantity` over the items, whose `discount` is
`discountCalculation(cart)`, and whose `final` is `total - discount`. -/
theorem PromotionProcessor.processDiscount_spec
    (self : PromotionProcessor) (cart : Cart) :
    (self.processDiscount cart).total = cartItemsSum cart ∧
    (self.processDiscount cart).discount = self.discountCalculation cart ∧
    (self.processDiscount cart).final =
      (self.processDiscount cart).total - (self.processDiscount cart).discount := by
  refine ⟨?_, rfl, rfl⟩
  simpa [PromotionProcessor.processDiscount] using
    PromotionProcessor.cartTotal_eq_itemsSum cart

/-- C2: on the source file's sample cart and rule list, `processDiscount`
returns `total = 250`, `discount = 82.5`, `final = 167.5`, with the
threshold rule contributing `12.5`, the per-product rule `20` and the
promo-code rule `50`. -/
theorem engine_concrete_scenario :
    engine.processDiscount sampleCart =
      { total := 250, discount := 82.5, final := 167.5 } ∧
    CartTotalFormula.process 150 5 sampleCart = 12.5 ∧
    ProductFormula.process "A1" 10 sampleCart = 20 ∧
    PromoCodeFormula.process sampleCart = 50 := by
  refine ⟨?_, ?_, ?_, ?_⟩ <;>
    simp [engine, sampleFormulas, sampleCart, PromotionProcessor.processDiscount,
      PromotionProcessor.cartTotal, PromotionProcessor.discountCalculation,
      PromotionFormula.process, CartTotalFormula.process, CartTotalFormula.cartTotal,
      ProductFormula.process, PromoCodeFormula.process, PromoCodeFormula.cartTotal,
      PromoCodeFormula.percentOf, PromoCodeFormula.promoCodes, List.find?,
      DiscountResult.mk.injEq] <;>
    norm_num

/-- The threshold rule's recomputed total also equals `Σ price×quantity`. -/
theorem CartTotalFormula.cartTotal_eq_thresholdSum (cart : Cart) :
    CartTotalFormula.cartTotal cart = cartItemsSum cart :=
  PromotionProcessor.cartTotal_eq_itemsSum cart

/-- The promo-code rule's recomputed total also equals `Σ price×quantity`. -/
theorem PromoCodeFormula.cartTotal_eq_promoSum (cart : Cart) :
    PromoCodeFormula.cartTotal cart = cartItemsSum cart :=
  PromotionProcessor.cartTotal_eq_itemsSum cart

/-- C3: for every processor and cart, `discountCalculation` is the sum of
`Formula.process cart` over the configured list, of any length; and with
the empty rule list the discount is `0` and `final` equals `total`. -/
theorem PromotionProcessor.discountCalculation_linear
    (self : PromotionProcessor) (cart : Cart) :
    self.discountCalculation cart =
      (self.Formulas.map (fun Formula => Formula.process cart)).sum ∧
    (PromotionProcessor.mk []).discountCalculation cart = 0 ∧
    ((PromotionProcessor.mk []).processDiscount cart).final =
      ((PromotionProcessor.mk []).processDiscount cart).total := by
  refine ⟨?_, rfl, ?_⟩
  · simpa [PromotionProcessor.discountCalculation] using
      foldl_add_map_sum (fun Formula : PromotionFormula => Formula.process cart)
        self.Formulas 0
  · simp [PromotionProcessor.processDiscount, PromotionProcessor.discountCalculation]

/-- C4: the threshold rule computes the cart total as `Σ price×quantity`
and returns `total * (discountPercent / 100)` when `total ≥ threshold`,
else `0`; in particular a total exactly equal to the threshold qualifies
(inclusive boundary). -/
theorem CartTotalFormula.process_threshold_spec (threshold discountPercent : ℚ) (cart : Cart) :
    CartTotalFormula.process threshold discountPercent cart =
      (if cartItemsSum cart ≥ threshold
        then cartItemsSum cart * (discountPercent / 100) else 0) ∧
    (cartItemsSum cart = threshold →
      CartTotalFormula.process threshold discountPercent cart =
        cartItemsSum cart * (discountPercent / 100)) := by
  have h := CartTotalFormula.cartTotal_eq_thresholdSum cart
  constructor
  · simp [CartTotalFormula.process, h]
  · intro hb
    simp [CartTotalFormula.process, h, hb]

/-- Witness for C4 at the boundary: a one-item cart totalling exactly the
threshold `150` receives the `5%` discount `150 * (5 / 100)`. -/
theorem CartTotalFormula.process_threshold_spec_witness :
    CartTotalFormula.process 150 5
      { items := [{ productId := "X", name := "X", price := 150, quantity := 1 }],
        promoCode := none } =
    cartItemsSum
      { items := [{ productId := "X", name := "X", price := 150, quantity := 1 }],
        promoCode := none } * (5 / 100) :=
  (CartTotalFormula.process_threshold_spec 150 5 _).2 (by simp [cartItemsSum])

/-- C5: the promo-code rule returns `Σ price×quantity * (percent / 100)`
where `percent` is the table lookup of the promo code; an absent code is
looked up as the empty string, and a code whose lookup yields `0`
(absent or unknown) makes the rule return exactly `0`. -/
theorem PromoCodeFormula.process_lookup_spec (cart : Cart) :
    PromoCodeFormula.process cart =
      cartItemsSum cart * (PromoCodeFormula.percentOf cart / 100) ∧
    (cart.promoCode = none →
      PromoCodeFormula.process cart =
        PromoCodeFormula.process { items := cart.items, promoCode := some "" }) ∧
    (PromoCodeFormula.percentOf cart = 0 → PromoCodeFormula.process cart = 0) := by
  refine ⟨?_, ?_, ?_⟩
  · simp [PromoCodeFormula.process, PromoCodeFormula.cartTotal_eq_promoSum]
  · intro h
    simp [PromoCodeFormula.process, PromoCodeFormula.percentOf,
      PromoCodeFormula.cartTotal, h]
  · intro h
    simp [PromoCodeFormula.process, h]

/-- Witness for C5: a cart with the unknown promo code `WINTER99` gets a
zero promo-code discount. -/
theorem PromoCodeFormula.process_lookup_spec_witness :
    PromoCodeFormula.process
      { items := [{ productId := "A1", name := "Shoes", price := 100, quantity := 2 }],
        promoCode := some "WINTER99" } = 0 :=
  (PromoCodeFormula.process_lookup_spec _).2.2
    (by simp [PromoCodeFormula.percentOf, PromoCodeFormula.promoCodes, List.find?])

/-- C6: the per-product rule returns `0` when no item matches the
configured product id, and where a matching item exists it returns
`fixedDiscount × quantity` of the FIRST match, ignoring any later items
with the same product id. -/
theorem ProductFormula.process_first_match_spec (productId : String) (fixedDiscount : ℚ) :
    (∀ cart : Cart, (∀ item ∈ cart.items, item.productId ≠ productId) →
      ProductFormula.process productId fixedDiscount cart = 0) ∧
    (∀ (pre : List CartItem) (item : CartItem) (post : List CartItem)
        (promoCode : Option String),
      (∀ i ∈ pre, i.productId ≠ productId) → item.productId = productId →
      ProductFormula.process productId fixedDiscount
        { items := pre ++ item :: post, promoCode := promoCode } =
        fixedDiscount * item.quantity) := by
  constructor
  · intro cart h
    have hn : cart.items.find? (fun item => item.productId == productId) = none := by
      rw [List.find?_eq_none]
      intro x hx
      simpa using h x hx
    simp [ProductFormula.process, hn]
  · intro pre item post promoCode hpre hitem
    have hn : pre.find? (fun i => i.productId == productId) = none := by
      rw [List.find?_eq_none]
      intro x hx
      simpa using hpre x hx
    have hs : (item :: post).find? (fun i => i.productId == productId) = some item :=
      List.find?_cons_of_pos _ (by simpa using hitem)
    simp [ProductFormula.process, List.find?_append, hn, hs]

/-- Witness for C6: with a non-matching item first and a duplicate `A1`
later in the list, the discount uses the first `A1` item's quantity `2`,
giving `10 * 2`. -/
theorem ProductFormula.process_first_match_spec_witness :
    ProductFormula.process "A1" 10
      { items :=
          [ { productId := "B2", name := "Hat", price := 50, quantity := 1 },
            { productId := "A1", name := "Shoes", price := 100, quantity := 2 },
            { productId := "A1", name := "Dup", price := 1, quantity := 7 } ],
        promoCode := none } =
      10 * ({ productId := "A1", name := "Shoes", price := 100, quantity := 2 } :
        CartItem).quantity :=
  (ProductFormula.process_first_match_spec "A1" 10).2
    [{ productId := "B2", name := "Hat", price := 50, quantity := 1 }]
    { productId := "A1", name := "Shoes", price := 100, quantity := 2 }
    [{ productId := "A1", name := "Dup", price := 1, quantity := 7 }]
    none (by simp) rfl

/-- A one-item cart of value `1`, used to exhibit a negative final price. -/
def cheapCart : Cart :=
  { items := [{ productId := "A1", name := "Shoes", price := 1, quantity := 1 }],
    promoCode := none }

/-- An engine whose single rule grants a `100`-per-unit discount on `A1`,
far exceeding `cheapCart`'s total of `1`. -/
def overDiscounter : PromotionProcessor :=
  { Formulas := [.productFormula "A1" 100] }

/-- C7: no clamping — there is a cart and a configured rule list for which
the summed discount exceeds the cart total and `processDiscount` returns a
negative `final`; hence no invariant `discount ≤ total` holds. -/
theorem processDiscount_no_clamping :
    ∃ (cart : Cart) (self : PromotionProcessor),
      (self.processDiscount cart).total < (self.processDiscount cart).discount ∧
      (self.processDiscount cart).final < 0 := by
  refine ⟨cheapCart, overDiscounter, ?_, ?_⟩ <;>
    simp [cheapCart, overDiscounter, PromotionProcessor.processDiscount,
      PromotionProcessor.cartTotal, PromotionProcessor.discountCalculation,
      PromotionFormula.process, ProductFormula.process, List.find?]

/-- C8: the cart total recomputed inside `CartTotalFormula.process`, inside
`PromoCodeFormula.process` and inside `PromotionProcessor.processDiscount`
agree exactly on every cart (all three equal `Σ price×quantity`). -/
theorem cartTotal_agreement (cart : Cart) :
    CartTotalFormula.cartTotal cart = PromotionProcessor.cartTotal cart ∧
    PromoCodeFormula.cartTotal cart = PromotionProcessor.cartTotal cart ∧
    PromotionProcessor.cartTotal cart = cartItemsSum cart :=
  ⟨rfl, rfl, PromotionProcessor.cartTotal_eq_itemsSum cart⟩

/-- C9: permuting the cart's item list leaves the `total` returned by
`processDiscount` unchanged: it is `Σ price×quantity`, independent of
item order. -/
theorem processDiscount_total_perm_invariant
    (self : PromotionProcessor) (cart₁ cart₂ : Cart)
    (h : cart₁.items.Perm cart₂.items) :
    (self.processDiscount cart₁).total = (self.processDiscount cart₂).total := by
  show PromotionProcessor.cartTotal cart₁ = PromotionProcessor.cartTotal cart₂
  rw [PromotionProcessor.cartTotal_eq_itemsSum, PromotionProcessor.cartTotal_eq_itemsSum]
  exact List.Perm.sum_eq
    (List.Perm.map (fun item : CartItem => item.price * item.quantity) h)

/-- The sample cart with its two items swapped, for the C9 witness. -/
def sampleCartSwapped : Cart :=
  { items :=
      [ { productId := "B2", name := "Hat", price := 50, quantity := 1 },
        { productId := "A1", name := "Shoes", price := 100, quantity := 2 } ],
    promoCode := some "VIP20" }

/-- Witness for C9: swapping the two items of the sample cart leaves the
engine's computed total unchanged. -/
theorem processDiscount_total_perm_invariant_witness :
    (engine.processDiscount sampleCart).total =
      (engine.processDiscount sampleCartSwapped).total :=
  processDiscount_total_perm_invariant engine sampleCart sampleCartSwapped
    (by unfold sampleCart sampleCartSwapped
        exact List.Perm.swap _ _ _)

/-- The quantity of the first item matching `productId`, determined only by
the `(productId, quantity)` projections of the item list. -/
theorem find_quantity_congr (productId : String) :
    ∀ (l₁ l₂ : List CartItem),
      l₁.map (fun i => (i.productId, i.quantity)) =
        l₂.map (fun i => (i.productId, i.quantity)) →
      ((l₁.find? fun i => i.productId == productId).map fun i => i.quantity) =
        ((l₂.find? fun i => i.productId == productId).map fun i => i.quantity) := by
  intro l₁
  induction l₁ with
  | nil =>
    intro l₂ h
    cases l₂ with
    | nil => rfl
    | cons y ys => simp at h
  | cons x xs ih =>
    intro l₂ h
    cases l₂ with
    | nil => simp at h
    | cons y ys =>
      simp only [List.map_cons, List.cons.injEq, Prod.mk.injEq] at h
      obtain ⟨⟨hid, hq⟩, htl⟩ := h
      by_cases hx : (x.productId == productId) = true
      · have hy : (y.productId == productId) = true := by
          rw [← hid]; exact hx
        rw [List.find?_cons_of_pos (p := fun i : CartItem => i.productId == productId) _ hx,
          List.find?_cons_of_pos (p := fun i : CartItem => i.productId == productId) _ hy]
        simp [hq]
      · have hy : ¬((y.productId == productId) = true) := by
          rw [← hid]; exact hx
        rw [List.find?_cons_of_neg (p := fun i : CartItem => i.productId == productId) _ hx,
          List.find?_cons_of_neg (p := fun i : CartItem => i.productId == productId) _ hy]
        exact ih ys htl

/-- C10: `ProductFormula.process` depends only on the promo code and the
ordered `(productId, quantity)` pairs of the items: two carts agreeing on
those but with arbitrary prices (and names) get the same per-product
discount, so that discount is uncapped by the matched item's value. -/
theorem ProductFormula.process_price_independent
    (productId : String) (fixedDiscount : ℚ) (cart₁ cart₂ : Cart)
    (_hpc : cart₁.promoCode = cart₂.promoCode)
    (hitems : cart₁.items.map (fun i => (i.productId, i.quantity)) =
      cart₂.items.map (fun i => (i.productId, i.quantity))) :
    ProductFormula.process productId fixedDiscount cart₁ =
      ProductFormula.process productId fixedDiscount cart₂ := by
  have h := find_quantity_congr productId cart₁.items cart₂.items hitems
  unfold ProductFormula.process
  cases h₁ : cart₁.items.find? fun i => i.productId == productId with
  | none =>
    rw [h₁] at h
    cases h₂ : cart₂.items.find? fun i => i.productId == productId with
    | none => rfl
    | some j => rw [h₂] at h; simp at h
  | some i =>
    rw [h₁] at h
    cases h₂ : cart₂.items.find? fun i => i.productId == productId with
    | none => rw [h₂] at h; simp at h
    | some j =>
      rw [h₂] at h
      simp only [Option.map_some, Option.map_some', Option.some.injEq] at h
      simp [h]

/-- A variant of `cheapCart`'s item with a different price and name but the
same `(productId, quantity)` pair, for the C10 witness. -/
def priceyCart : Cart :=
  { items := [{ productId := "A1", name := "GoldShoes", price := 1000000, quantity := 1 }],
    promoCode := none }

/-- Witness for C10: changing the matched item's price from `1` to
`1000000` (and its name) leaves the per-product discount unchanged. -/
theorem ProductFormula.process_price_independent_witness :
    ProductFormula.process "A1" 100 cheapCart =
      ProductFormula.process "A1" 100 priceyCart :=
  ProductFormula.process_price_independent "A1" 100 cheapCart priceyCart rfl rfl
